import Mathlib

/-!
Verification of the request-orchestration engine of this repository against
its specification.  The Python sources are shallowly embedded: pure
functions become Lean functions, dict-shaped values become structures with
`Option` fields for possibly-missing keys, external collaborators (shell
commands, service managers, the model oracle, the filesystem) are
parameters, and a Python exception escaping a function is modelled with
`Except`.
-/

/- ----------------------------------------------------------------- -/
/- Python-style string helpers (operating on the underlying char list
   so that every definition reduces in the kernel).                   -/
/- ----------------------------------------------------------------- -/

/-- Python `str.lower()` (ASCII case folding, as used by the sources). -/
def lowerStr (s : String) : String := ⟨s.data.map Char.toLower⟩

/-- Does the second list occur as a prefix of the first? -/
def hasPrefixChars : List Char → List Char → Bool
  | _, [] => true
  | [], _ :: _ => false
  | c :: cs, p :: ps => c = p && hasPrefixChars cs ps

/-- Does `pat` occur as a contiguous sublist of the first list? -/
def containsChars : List Char → List Char → Bool
  | [], pat => pat.isEmpty
  | c :: rest, pat => hasPrefixChars (c :: rest) pat || containsChars rest pat

/-- Python `pat in hay` for strings (substring containment). -/
def containsSub (hay pat : String) : Bool := containsChars hay.data pat.data

/-- Split a char list at every char satisfying `p` (keeping empty groups),
as Python `str.split(sep)` does. -/
def splitBy (p : Char → Bool) : List Char → List (List Char)
  | [] => [[]]
  | c :: rest =>
    match splitBy p rest with
    | [] => [[]]
    | g :: gs => if p c then [] :: g :: gs else (c :: g) :: gs

/-- Python `str.split()` with no argument: split on whitespace runs,
discarding empty tokens. -/
def pyTokens (s : String) : List (List Char) :=
  (splitBy Char.isWhitespace s.data).filter (fun g => !g.isEmpty)

/-- Python `str.strip()` (whitespace from both ends). -/
def trimChars (cs : List Char) : List Char :=
  ((cs.dropWhile Char.isWhitespace).reverse.dropWhile Char.isWhitespace).reverse

/-- Python `str(x)` on an optional string: `None` prints as `"None"`. -/
def pyStrOpt : Option String → String
  | none => "None"
  | some s => s

/- ----------------------------------------------------------------- -/
/- src/command_center/orchestrator.py  (ActionOrchestrator)           -/
/- ----------------------------------------------------------------- -/

/-- The value a mapped orchestrator function returns: either a Python dict
(whose relevant keys are `success`, read with default `False`, and
`error`, read with default `"Step failed"`), or a non-dict value whose
truthiness is recorded. -/
inductive PyResult where
  | dict (success : Bool) (error : Option String)
  | other (truthy : Bool)
deriving DecidableEq, Repr

/-- `result.get("success", False) if isinstance(result, dict) else bool(result)`. -/
def PyResult.succVal : PyResult → Bool
  | .dict b _ => b
  | .other t => t

/-- `result.get("error", "Step failed") if isinstance(result, dict) else "Step failed"`. -/
def PyResult.errVal : PyResult → String
  | .dict _ e => e.getD "Step failed"
  | .other _ => "Step failed"

/-- Outcome of calling one of the mapped functions: it returns a value or
raises an exception.  The mapped functions wrap external collaborators
(CommandExecutor / ServiceManager), so their behaviour is a parameter. -/
inductive FuncBehavior where
  | returns (r : PyResult)
  | raises (msg : String)

/-- The behaviour of `self.function_map[name](*args)` for each name. -/
abbrev ExecFn := String → List (Option String) → FuncBehavior

/-- One entry of an action plan handed to `execute_plan`: a dict with keys
`step` (defaulted to `step_{i}`), `function` and `args`. -/
structure PStep where
  step : Option String
  function : Option String
  args : List (Option String)
deriving DecidableEq, Repr

/-- The keys of `ActionOrchestrator.function_map`. -/
def functionMapNames : List String :=
  ["run_command", "check_service", "start_service", "stop_service",
   "restart_service", "list_services"]

/-- One entry of the `steps` list built by `execute_plan`.  `executed`
entries carry a `result` key; `noResult` entries (unknown function, or the
function raised) carry only an `error` key. -/
inductive StepResult where
  | executed (step : String) (function : String) (success : Bool) (result : PyResult)
  | noResult (step : String) (function : Option String) (error : String)
deriving DecidableEq, Repr

/-- The `success` key of a step-result dict (present in every entry). -/
def StepResult.success : StepResult → Bool
  | .executed _ _ b _ => b
  | .noResult _ _ _ => false

/-- The `for i, step in enumerate(plan)` loop of `execute_plan`, returning
the accumulated `steps` and `errors` lists. -/
def runPlan (f : ExecFn) (fail_fast : Bool) : Nat → List PStep → List StepResult × List String
  | _, [] => ([], [])
  | i, s :: rest =>
    let stepName := s.step.getD ("step_" ++ Nat.repr i)
    let unknownCase :=
      let emsg := "Unknown function: " ++ pyStrOpt s.function
      let sr := StepResult.noResult stepName s.function emsg
      if fail_fast then ([sr], [emsg])
      else
        let p := runPlan f fail_fast (i + 1) rest
        (sr :: p.1, emsg :: p.2)
    match s.function with
    | none => unknownCase
    | some fn =>
      if !functionMapNames.contains fn then unknownCase
      else
        match f fn s.args with
        | .returns r =>
          let sr := StepResult.executed stepName fn r.succVal r
          if r.succVal then
            let p := runPlan f fail_fast (i + 1) rest
            (sr :: p.1, p.2)
          else
            let emsg := stepName ++ ": " ++ r.errVal
            if fail_fast then ([sr], [emsg])
            else
              let p := runPlan f fail_fast (i + 1) rest
              (sr :: p.1, emsg :: p.2)
        | .raises m =>
          let sr := StepResult.noResult stepName (some fn) m
          let emsg := stepName ++ ": " ++ m
          if fail_fast then ([sr], [emsg])
          else
            let p := runPlan f fail_fast (i + 1) rest
            (sr :: p.1, emsg :: p.2)

/-- The dict returned by `execute_plan` (fields mirror its keys; `none`
in `steps_count` / `message` means the key is absent). -/
structure ExecResult where
  success : Bool
  steps : List StepResult
  final_result : Option PyResult
  errors : List String
  steps_count : Option Nat
  message : Option String
deriving DecidableEq, Repr

/-- `ActionOrchestrator.execute_plan`.  The `Except.error` case models a
Python exception escaping the call: `steps[-1]["result"]` raises
`KeyError` when the last attempted step entry has no `result` key. -/
def execute_plan (f : ExecFn) (plan : List PStep) (fail_fast : Bool) :
    Except String ExecResult :=
  if plan.isEmpty then
    .ok { success := false, steps := [], final_result := none,
          errors := ["Empty action plan"], steps_count := none,
          message := some "No action plan provided" }
  else
    let p := runPlan f fail_fast 0 plan
    let steps := p.1
    let errors := p.2
    let success := errors.isEmpty && steps.all (fun st => st.success)
    match steps.getLast? with
    | none =>
      .ok { success := success, steps := steps, final_result := none,
            errors := errors, steps_count := some steps.length, message := none }
    | some (.executed _ _ _ r) =>
      .ok { success := success, steps := steps, final_result := some r,
            errors := errors, steps_count := some steps.length, message := none }
    | some (.noResult _ _ _) => .error "KeyError: result"

/-- The function of the step is registered and, when called, returns a value
reporting success. -/
def stepSucceedsB (f : ExecFn) (s : PStep) : Bool :=
  match s.function with
  | some fn =>
    functionMapNames.contains fn &&
      (match f fn s.args with
       | .returns r => r.succVal
       | .raises _ => false)
  | none => false

/-- The function of the step is registered and, when called, returns a value
reporting failure (so its step entry carries a `result` key). -/
def stepReportsFailureB (f : ExecFn) (s : PStep) : Bool :=
  match s.function with
  | some fn =>
    functionMapNames.contains fn &&
      (match f fn s.args with
       | .returns r => !r.succVal
       | .raises _ => false)
  | none => false

/- ----------------------------------------------------------------- -/
/- src/command_center/action_router.py  (ActionRouter)                -/
/- ----------------------------------------------------------------- -/

/-- One template step of `ActionRouter.action_plans`. -/
structure TStep where
  step : String
  function : String
  args : List String
deriving DecidableEq, Repr

/-- `ActionRouter.action_plans` (lookup in the hardcoded dict). -/
def action_plans (a : String) : Option (List TStep) :=
  if a = "restart_service" then
    some [⟨"check", "check_service", ["target"]⟩,
          ⟨"stop", "stop_service", ["target"]⟩,
          ⟨"start", "start_service", ["target"]⟩,
          ⟨"verify", "check_service", ["target"]⟩]
  else if a = "start_service" then
    some [⟨"check", "check_service", ["target"]⟩,
          ⟨"start", "start_service", ["target"]⟩,
          ⟨"verify", "check_service", ["target"]⟩]
  else if a = "stop_service" then
    some [⟨"check", "check_service", ["target"]⟩,
          ⟨"stop", "stop_service", ["target"]⟩,
          ⟨"verify", "check_service", ["target"]⟩]
  else if a = "check_service" then
    some [⟨"check", "check_service", ["target"]⟩]
  else if a = "run_command" then
    some [⟨"execute", "run_command", ["target"]⟩]
  else if a = "list_services" then
    some [⟨"list", "list_services", []⟩]
  else none

/-- A parsed intent as produced by RequestParser (`action` and `target`
keys, possibly `None`). -/
structure ParsedIntent where
  action : Option String
  target : Option String
deriving DecidableEq, Repr

/-- `target if arg == "target" else arg` from `ActionRouter.route`. -/
def substArg (target : Option String) (arg : String) : Option String :=
  if arg = "target" then target else some arg

/-- The per-step copy-and-substitute of `ActionRouter.route`. -/
def routeStep (target : Option String) (t : TStep) : PStep :=
  { step := some t.step, function := some t.function,
    args := t.args.map (substArg target) }

/-- `ActionRouter.route`. -/
def route (pi : ParsedIntent) : List PStep :=
  if pi.action = some "unknown" then []
  else
    let base :=
      match pi.action with
      | some a => (action_plans a).getD []
      | none => []
    base.map (routeStep pi.target)

/- ----------------------------------------------------------------- -/
/- src/command_center/autonomous/graph/state.py  (AgentState)         -/
/- ----------------------------------------------------------------- -/

/-- A message in `AgentState.messages`: either a role-tagged dict (as the
nodes append) or a LangChain message object carrying only `content` (as
the API injects).  The two are distinguished because the extraction loops
treat them differently (`isinstance(msg, dict)` vs `hasattr(msg,
"content")`). -/
inductive AMsg where
  | dict (role : String) (content : String)
  | obj (content : String)
deriving DecidableEq, Repr

/-- A plan step as built by the planner node. -/
structure PlanStep where
  id : Nat
  action : String
  status : String
  dependencies : List Nat
deriving DecidableEq, Repr

/-- The `plan` dict stored by the planner node. -/
structure PlanRec where
  task : String
  steps : List PlanStep
  total_steps : Nat
deriving DecidableEq, Repr

/-- An entry of `AgentState.tool_calls`: its `name` (read with default
`""`) and the argument keys the verify node inspects (read from the
`args` dict with default `""`). -/
structure ToolCallRec where
  name : String
  command : Option String
  file_path : Option String
  service_name : Option String
deriving DecidableEq, Repr

/-- An entry of `AgentState.tool_results`: `success` is read with default
`True`, `error` with default `"Unknown error"`. -/
structure ToolResultRec where
  success : Option Bool
  error : Option String
deriving DecidableEq, Repr

/-- The `verification_results` dict built by the verify node. -/
structure VerificationResults where
  files_created : List String
  files_modified : List String
  files_exist : Bool
  errors : List String
  warnings : List String
deriving DecidableEq, Repr

/-- `AgentState` (graph/state.py).  Fields never read or written by the
embedded nodes and edges (`project_context`, `user_id`, `memory_context`,
`conversation_state`, `state_manager`) are omitted; `summary` is the key
the summarize node adds. -/
structure AgentState where
  messages : List AMsg
  intent : Option String
  mode : Option String
  plan : Option PlanRec
  current_step : Option Nat
  steps : List PlanStep
  tool_calls : List ToolCallRec
  tool_results : List ToolResultRec
  modified_files : List String
  created_files : List String
  verification_results : Option VerificationResults
  errors : List String
  requires_approval : Bool
  approval_status : Option String
  approval_message : Option String
  summary : Option String
  session_id : String
deriving DecidableEq, Repr

/-- The user-message extraction loop shared by the router and planner
nodes: first dict message with role `"user"`, or the first non-dict
message (which always exposes `content`); `""` when none matches. -/
def getUserMessage : List AMsg → String
  | [] => ""
  | AMsg.dict role content :: rest =>
    if role = "user" then content else getUserMessage rest
  | AMsg.obj content :: _ => content

/- ----------------------------------------------------------------- -/
/- src/command_center/autonomous/nodes/verify.py  (verify_node)       -/
/- ----------------------------------------------------------------- -/

/-- The `dangerous_patterns` table of the verify node. -/
def dangerous_patterns : List String :=
  ["rm -rf", "delete", "drop", "remove", "uninstall",
   "/etc/", "/usr/", "/var/", "system", "service"]

/-- The inline protected-path table used for `write_file` calls. -/
def writePathPatterns : List String := ["/etc/", "/usr/", "/var/", "system"]

/-- One pass of the dangerous-operation scan over a single tool call,
threading the `(requires_approval, approval_message)` pair. -/
def verifyScanStep (acc : Bool × String) (tc : ToolCallRec) : Bool × String :=
  let acc1 :=
    if tc.name = "run_command" then
      let command := lowerStr (tc.command.getD "")
      if dangerous_patterns.any (fun pat => containsSub command pat) then
        (true, "Dangerous command detected: " ++ command)
      else acc
    else acc
  let acc2 :=
    if tc.name = "write_file" then
      let fp := tc.file_path.getD ""
      if writePathPatterns.any (fun pat => containsSub fp pat) then
        (true, "System file modification: " ++ fp)
      else acc1
    else acc1
  if tc.name = "stop_service" ∨ tc.name = "restart_service" then
    (true, "Service operation: " ++ tc.name ++ " on " ++ tc.service_name.getD "")
  else acc2

/-- `verify_node`, parameterized by the filesystem (`os.path.exists`). -/
def verify_node (fexists : String → Bool) (st : AgentState) : AgentState :=
  let vr0 : VerificationResults :=
    { files_created := [], files_modified := [], files_exist := true,
      errors := [], warnings := [] }
  let vr1 := st.created_files.foldl (fun vr fp =>
    if fexists fp then { vr with files_created := vr.files_created ++ [fp] }
    else { vr with errors := vr.errors ++ ["Created file does not exist: " ++ fp],
                   files_exist := false }) vr0
  let vr2 := st.modified_files.foldl (fun vr fp =>
    if fexists fp then { vr with files_modified := vr.files_modified ++ [fp] }
    else { vr with warnings := vr.warnings ++ ["Modified file does not exist: " ++ fp] }) vr1
  let vr3 := st.tool_results.foldl (fun vr r =>
    if (r.success.getD true) = false then
      { vr with errors := vr.errors ++ ["Tool error: " ++ (r.error.getD "Unknown error")] }
    else vr) vr2
  let scan := st.tool_calls.foldl verifyScanStep (false, "")
  let st1 := { st with verification_results := some vr3, requires_approval := scan.1 }
  if scan.1 then
    { st1 with approval_status := some "pending", approval_message := some scan.2 }
  else st1

/-- A tool call that trips the dangerous-operation scan of the verify node
(characterization of `verifyScanStep` setting the flag). -/
def dangerousToolCallB (tc : ToolCallRec) : Bool :=
  (if tc.name = "run_command" then
     dangerous_patterns.any (fun pat => containsSub (lowerStr (tc.command.getD "")) pat)
   else false) ||
  (if tc.name = "write_file" then
     writePathPatterns.any (fun pat => containsSub (tc.file_path.getD "") pat)
   else false) ||
  (if tc.name = "stop_service" ∨ tc.name = "restart_service" then true else false)

/- ----------------------------------------------------------------- -/
/- src/command_center/autonomous/nodes/hil.py  (hil_node)             -/
/- ----------------------------------------------------------------- -/

/-- `hil_node`.  In the `pending` branch `interrupt()` pauses the graph
run; the state itself is returned unchanged. -/
def hil_node (st : AgentState) : AgentState :=
  if st.requires_approval = false then st
  else if st.approval_status = some "pending" then st
  else if st.approval_status = some "approved" then
    { st with requires_approval := false }
  else if st.approval_status = some "rejected" then
    { st with errors := st.errors ++ ["Operation rejected by user"],
              requires_approval := false }
  else st

/- ----------------------------------------------------------------- -/
/- src/command_center/autonomous/graph/edges.py                       -/
/- ----------------------------------------------------------------- -/

/-- `check_approval_needed`. -/
def check_approval_needed (st : AgentState) : String :=
  if st.requires_approval = true ∧ st.approval_status = some "pending" then "hil"
  else "summarize"

/-- `check_approval_status`. -/
def check_approval_status (st : AgentState) : String :=
  if st.approval_status = some "approved" then "summarize"
  else if st.approval_status = some "rejected" then "summarize"
  else "end"

/- ----------------------------------------------------------------- -/
/- src/command_center/autonomous/nodes/summarize.py                   -/
/- ----------------------------------------------------------------- -/

/-- `summarize_node`. -/
def summarize_node (st : AgentState) : AgentState :=
  let parts : List String := []
  let parts :=
    if st.created_files.isEmpty then parts
    else parts ++ ["Created " ++ Nat.repr st.created_files.length ++ " file(s):"]
           ++ st.created_files.map (fun fp => "  - " ++ fp)
  let parts :=
    if st.modified_files.isEmpty then parts
    else parts ++ ["\nModified " ++ Nat.repr st.modified_files.length ++ " file(s):"]
           ++ st.modified_files.map (fun fp => "  - " ++ fp)
  let successful_tools := (st.tool_results.filter (fun r => r.success.getD true)).length
  let total_tools := st.tool_results.length
  let parts :=
    if total_tools > 0 then
      parts ++ ["\nExecuted " ++ Nat.repr successful_tools ++ "/" ++ Nat.repr total_tools
                  ++ " tool(s) successfully"]
    else parts
  let parts :=
    if st.errors.isEmpty then parts
    else parts ++ ["\nErrors encountered:"]
           ++ (st.errors.take 5).map (fun e => "  - " ++ e)
  let parts :=
    match st.verification_results with
    | none => parts
    | some v =>
      let parts := if v.files_exist then parts ++ ["\n✅ All files verified successfully"] else parts
      if v.errors.isEmpty then parts
      else parts ++ ["\n⚠️ Verification errors: " ++ Nat.repr v.errors.length]
  let parts :=
    match st.plan with
    | none => parts
    | some pl =>
      let completed := (pl.steps.filter (fun s => s.status = "completed")).length
      parts ++ ["\nPlan progress: " ++ Nat.repr completed ++ "/"
                  ++ Nat.repr pl.steps.length ++ " steps completed"]
  let summary := if parts.isEmpty then "Task completed" else String.intercalate "\n" parts
  { st with summary := some summary,
            messages := st.messages ++ [AMsg.dict "assistant" summary] }

/- ----------------------------------------------------------------- -/
/- src/command_center/api.py  (approval update and response building) -/
/- ----------------------------------------------------------------- -/

/-- The state update performed by the `/api/approve` endpoint
(`approve_operation`). -/
def approve_update (approved : Bool) (st : AgentState) : AgentState :=
  { st with approval_status := some (if approved then "approved" else "rejected"),
            requires_approval := false }

/-- The reversed-messages scan of the `/api/execute` autonomous branch:
first assistant dict (or first object message) from the end. -/
def lastAssistantScan : List AMsg → String
  | [] => ""
  | AMsg.dict role content :: rest =>
    if role = "assistant" then content else lastAssistantScan rest
  | AMsg.obj content :: _ => content

/-- The response dict built by the `/api/execute` autonomous branch
(api.py, result extraction from the final graph state). -/
structure ApiResponse where
  success : Bool
  message : String
  created_files : List String
  modified_files : List String
  verification_results : Option VerificationResults
  plan : Option PlanRec
  errors : List String
  original_request : String
  mode : String
  session_id : String
deriving DecidableEq, Repr

/-- Build the autonomous-mode `ExecuteResponse` from the final graph
state (api.py, `result = {...}`): `success` is `len(errors) == 0`. -/
def autonomousResponse (request : String) (st : AgentState) : ApiResponse :=
  let summary := st.summary.getD ""
  let summary := if summary = "" then lastAssistantScan st.messages.reverse else summary
  { success := st.errors.isEmpty,
    message := if summary = "" then "Task completed" else summary,
    created_files := st.created_files,
    modified_files := st.modified_files,
    verification_results := st.verification_results,
    plan := st.plan,
    errors := st.errors,
    original_request := request,
    mode := "autonomous",
    session_id := st.session_id }

/- ----------------------------------------------------------------- -/
/- src/command_center/autonomous/nodes/router.py  (router_node)       -/
/- ----------------------------------------------------------------- -/

/-- `code_keywords` of the router node. -/
def code_keywords : List String :=
  ["file", "code", "function", "class", "import", "refactor", "edit", "create",
   "modify", "add", "remove", "test", "bug", "fix", "implement", "feature",
   "module", "package"]

/-- `web_keywords` of the router node. -/
def web_keywords : List String :=
  ["search", "find", "lookup", "web", "internet", "url", "fetch",
   "research", "information", "about"]

/-- `action_keywords` of the router node. -/
def action_keywords : List String :=
  ["run", "execute", "command", "service", "system", "check",
   "start", "stop", "restart", "status"]

/-- `complex_indicators` of the router node. -/
def complex_indicators : List String :=
  ["refactor", "migrate", "implement", "add authentication",
   "add feature", "restructure", "redesign"]

/-- `router_node` (the Python locals `user_message` and `user_lower` are
inlined). -/
def router_node (st : AgentState) : AgentState :=
  if getUserMessage st.messages = "" then
    { st with intent := some "chat", mode := some "simple" }
  else if complex_indicators.any (fun k => containsSub (lowerStr (getUserMessage st.messages)) k) then
    { st with intent := some "complex", mode := some "planning" }
  else if code_keywords.any (fun k => containsSub (lowerStr (getUserMessage st.messages)) k) then
    { st with intent := some "code",
              mode := some (if (pyTokens (getUserMessage st.messages)).length > 10 then "planning"
                            else "simple") }
  else if web_keywords.any (fun k => containsSub (lowerStr (getUserMessage st.messages)) k) then
    { st with intent := some "web", mode := some "simple" }
  else if action_keywords.any (fun k => containsSub (lowerStr (getUserMessage st.messages)) k) then
    { st with intent := some "action", mode := some "simple" }
  else
    { st with intent := some "chat", mode := some "simple" }

/-- Modelled from the claim wording of C7 (refinement reference): the
ordered keyword-set membership test the spec describes, as a pure
function of the message.  To be compared with `router_node`. -/
def routerSpecClassify (msg : String) : String × String :=
  if complex_indicators.any (fun k => containsSub (lowerStr msg) k) then ("complex", "planning")
  else if code_keywords.any (fun k => containsSub (lowerStr msg) k) then
    ("code", if (pyTokens msg).length > 10 then "planning" else "simple")
  else if web_keywords.any (fun k => containsSub (lowerStr msg) k) then ("web", "simple")
  else if action_keywords.any (fun k => containsSub (lowerStr msg) k) then ("action", "simple")
  else ("chat", "simple")

/- ----------------------------------------------------------------- -/
/- src/command_center/autonomous/nodes/planner.py  (planner_node)     -/
/- ----------------------------------------------------------------- -/

/-- The character set of `line.lstrip("0123456789.-* ")`. -/
def planMarkerChars : List Char := "0123456789.-* ".data

/-- The line-scanning plan extraction of the planner node: numbered or
bulleted lines become steps, numbered from 1. -/
def parsePlanLines (plan_text : String) : List PlanStep :=
  let lines := splitBy (fun c => c = '\n') plan_text.data
  (lines.foldl
    (fun (acc : List PlanStep × Nat) l =>
      let line := trimChars l
      match line with
      | [] => acc
      | c :: _ =>
        if c.isDigit || c = '-' || c = '*' then
          let step_desc := trimChars (line.dropWhile (fun ch => planMarkerChars.contains ch))
          if step_desc.isEmpty then acc
          else (acc.1 ++ [{ id := acc.2, action := String.mk step_desc,
                            status := "pending", dependencies := [] }], acc.2 + 1)
        else acc)
    ([], 1)).1

/-- The fixed fallback plan used when zero steps are extracted. -/
def genericThreeSteps : List PlanStep :=
  [{ id := 1, action := "Understand the task", status := "pending", dependencies := [] },
   { id := 2, action := "Execute the task", status := "pending", dependencies := [1] },
   { id := 3, action := "Verify completion", status := "pending", dependencies := [2] }]

/-- The fallback plan built in the `except` branch of the planner node. -/
def exceptFallbackSteps : List PlanStep :=
  [{ id := 1, action := "Execute task", status := "pending", dependencies := [] }]

/-- `planner_node`, parameterized by the model oracle (the whole
`get_llm_client` / prompt / `chain.invoke` pipeline for a task, which
either yields the response text or raises). -/
def planner_node (oracle : String → Except String String) (st : AgentState) : AgentState :=
  if st.mode ≠ some "planning" then st
  else
    let user_message := getUserMessage st.messages
    if user_message = "" then st
    else
      match oracle user_message with
      | Except.ok plan_text =>
        let steps0 := parsePlanLines plan_text
        let steps := if steps0.isEmpty then genericThreeSteps else steps0
        { st with plan := some { task := user_message, steps := steps,
                                 total_steps := steps.length },
                  steps := steps, current_step := some 0 }
      | Except.error e =>
        { st with plan := some { task := user_message, steps := exceptFallbackSteps,
                                 total_steps := 1 },
                  steps := exceptFallbackSteps,
                  current_step := some 0,
                  errors := st.errors ++ ["Planning error: " ++ e] }

/- ----------------------------------------------------------------- -/
/- src/command_center/llm_command_center.py  (LLMCommandCenter)       -/
/- ----------------------------------------------------------------- -/

/-- The `function` object of an OpenAI-style tool call. -/
structure LCFunction where
  name : String
  arguments : String
deriving DecidableEq, Repr

/-- A tool call as produced by `LLMClient.chat_with_functions`. -/
structure LCToolCall where
  id : Option String
  type : String
  function : LCFunction
deriving DecidableEq, Repr

/-- A chat message of the phase-3 loop (`role`, `content`, optional
`tool_calls` / `tool_call_id` keys; an absent key is the empty list /
`none`). -/
structure ChatMsg where
  role : String
  content : Option String
  tool_calls : List LCToolCall
  tool_call_id : Option String
deriving DecidableEq, Repr

/-- A response of `chat_with_functions`: either a dict containing an
`error` key, or `content` plus `tool_calls`. -/
inductive OracleResp where
  | err (e : String)
  | reply (content : Option String) (tool_calls : List LCToolCall)

/-- One entry of the list returned by `FunctionCaller.call_functions`:
the truthiness of its `success` key, its already-serialized `result`
payload (`json.dumps(result, indent=2, default=str)` is an external
library call), and its `error` key. -/
structure FuncRes where
  success : Bool
  resultJson : String
  error : Option String
deriving DecidableEq, Repr

/-- The dict returned by `LLMCommandCenter.handle` (fields mirror its
keys; `none` models an absent key, and `message` is `Option` because the
final text can be Python `None` when the oracle returns no content). -/
structure HandleResult where
  success : Bool
  message : Option String
  iterations : Option Nat
  tool_results : Option (List FuncRes)
  llm_response : Option (Option String × List LCToolCall)
  error : Option String
  original_request : String
deriving DecidableEq, Repr

/-- The system prompt of `LLMCommandCenter`. -/
def systemPrompt : String :=
  "You are a helpful coding assistant that can execute system commands, manage services, and work with files on a computer.

You have access to tools that allow you to:
- Run shell commands
- Check, start, stop, and restart system services
- Get system information
- Read files (with code structure analysis for code files)
- Write files
- List directory contents
- Search the web
- Navigate directories

FILE OPERATIONS & CODE UNDERSTANDING:
- When reading code files, you receive structure analysis (functions, classes, imports, patterns)
- For test files, you can see all test functions (test_1, test_2, etc.)
- When users reference \"it\" or \"that file\", they mean the last file you showed them
- Remember files you\x27ve read in this conversation
- When asked to edit code, suggest specific code that follows existing patterns

CONTEXT AWARENESS:
- Pay attention to context provided at the start of requests
- \"Last file shown\" tells you what file the user is referring to
- \"Current directory\" tells you where you are
- Use this context to understand ambiguous requests like \"add test 6 to it\"

When a user makes a request:
1. Understand what they want to accomplish
2. Use context to resolve references (\"it\", \"that file\", etc.)
3. Use the available tools to perform the actions
4. For code edits, reference the structure you\x27ve seen and follow existing patterns
5. Provide clear, helpful responses based on the tool results

Always be helpful and explain what you\x27re doing. If a tool call fails, explain why and suggest alternatives.
"

/-- The dedicated message returned when the iteration bound is exhausted. -/
def maxIterationsMessage : String :=
  "Maximum iterations reached. The request may be too complex."

/-- The `while iterations < max_iterations` loop of
`LLMCommandCenter.handle`, parameterized by the model oracle
(`chat_with_functions`) and the tool executor
(`FunctionCaller.call_functions`).  The fuel argument is
`max_iterations - iterations`; the second component of the value is the
final value of `iterations`, which counts the oracle calls made.  The
`_update_conversation_state` call mutates only the session store and does
not feed back into this turn. -/
def handleLoop (oracle : List ChatMsg → OracleResp)
    (caller : List LCToolCall → List FuncRes) (request : String) :
    Nat → Nat → List ChatMsg → List FuncRes → HandleResult × Nat
  | 0, iterations, _, tool_results =>
    ({ success := false, message := some maxIterationsMessage,
       iterations := some iterations, tool_results := some tool_results,
       llm_response := none, error := none, original_request := request },
     iterations)
  | fuel + 1, iterations, messages, tool_results =>
    let iterations := iterations + 1
    match oracle messages with
    | OracleResp.err e =>
      ({ success := false, message := some ("LLM Error: " ++ e),
         iterations := none, tool_results := none, llm_response := none,
         error := some e, original_request := request }, iterations)
    | OracleResp.reply content tcs =>
      let assistantMsg : ChatMsg :=
        { role := "assistant", content := content, tool_calls := tcs,
          tool_call_id := none }
      let messages := messages ++ [assistantMsg]
      if tcs.isEmpty then
        ({ success := true, message := content, iterations := some iterations,
           tool_results := some tool_results,
           llm_response := some (content, tcs), error := none,
           original_request := request }, iterations)
      else
        let function_results := caller tcs
        let tool_results := tool_results ++ function_results
        let toolMsgs := tcs.mapIdx (fun i tc =>
          let fr := (function_results.get? i).getD
            { success := false, resultJson := "", error := none }
          let result_content :=
            if fr.success then fr.resultJson
            else "Error: " ++ (fr.error.getD "Unknown error")
          ({ role := "tool", content := some result_content, tool_calls := [],
             tool_call_id := tc.id } : ChatMsg))
        handleLoop oracle caller request fuel iterations (messages ++ toolMsgs)
          tool_results

/-- `LLMCommandCenter.handle`, with the conversation-state context string
as a parameter (`get_context_for_llm` reads the session store). -/
def handle (oracle : List ChatMsg → OracleResp)
    (caller : List LCToolCall → List FuncRes)
    (context : String) (request : String) (max_iterations : Nat) :
    HandleResult × Nat :=
  let enhanced_request :=
    if context ≠ "" then context ++ "\n\nUser request: " ++ request else request
  let messages : List ChatMsg :=
    [{ role := "system", content := some systemPrompt, tool_calls := [],
       tool_call_id := none },
     { role := "user", content := some enhanced_request, tool_calls := [],
       tool_call_id := none }]
  handleLoop oracle caller request max_iterations 0 messages []

/-- The oracle proposes at least one tool call on every consultation (the
scenario in which the iteration bound is exhausted). -/
def alwaysProposesToolCalls (oracle : List ChatMsg → OracleResp) : Prop :=
  ∀ msgs, ∃ c tcs, oracle msgs = OracleResp.reply c tcs ∧ tcs ≠ []

/- ----------------------------------------------------------------- -/
/- Reachability through the approval-related transitions (C9)         -/
/- ----------------------------------------------------------------- -/

/-- The initial orchestration states (`from_conversation_state` creates
states with `approval_status = None` and `requires_approval = False`;
the other fields are arbitrary here), closed under the three transitions
that touch the approval fields: the verify node, the HIL node, and the
`/api/approve` state update. -/
inductive ReachableState : AgentState → Prop where
  | init (st : AgentState) (h1 : st.approval_status = none)
      (h2 : st.requires_approval = false) : ReachableState st
  | verify (fexists : String → Bool) (st : AgentState)
      (h : ReachableState st) : ReachableState (verify_node fexists st)
  | hil (st : AgentState) (h : ReachableState st) :
      ReachableState (hil_node st)
  | approve (approved : Bool) (st : AgentState) (h : ReachableState st) :
      ReachableState (approve_update approved st)

/-- A fresh `AgentState` as built by `from_conversation_state`. -/
def initAgentState (session_id : String) : AgentState :=
  { messages := [], intent := none, mode := none, plan := none,
    current_step := none, steps := [], tool_calls := [], tool_results := [],
    modified_files := [], created_files := [], verification_results := none,
    errors := [], requires_approval := false, approval_status := none,
    approval_message := none, summary := none, session_id := session_id }

/-- Concrete executor behaviour used by the C1 witness: `check_service`
reports failure, everything else succeeds. -/
def wExecFn : ExecFn := fun fn _ =>
  if fn = "check_service" then FuncBehavior.returns (PyResult.dict false (some "service down"))
  else FuncBehavior.returns (PyResult.dict true none)

/- ----------------------------------------------------------------- -/
/- Theorems                                                           -/
/- ----------------------------------------------------------------- -/

/-- C10: on the empty plan, `execute_plan` returns without executing
anything: `success` is false, the step list is empty, `final_result` is
null, and the error list is exactly `["Empty action plan"]`. -/
theorem c10_empty_plan (f : ExecFn) (fail_fast : Bool) :
    execute_plan f [] fail_fast =
      Except.ok { success := false, steps := [], final_result := none,
                  errors := ["Empty action plan"], steps_count := none,
                  message := some "No action plan provided" } := rfl

/-- C4 (code bug witness): a one-step plan whose function name is not
registered makes `execute_plan` raise (`KeyError` on
`steps[-1]["result"]`) instead of returning the failed step normally. -/
theorem c4_unknown_function_raises :
    execute_plan (fun _ _ => FuncBehavior.returns (PyResult.dict true none))
      [{ step := some "s", function := some "bogus", args := [] }] true =
      Except.error "KeyError: result" := rfl

/-- C8: every registered Category-1 action routes to its non-empty
template with the parsed target substituted for every declared
`"target"` argument (`restart_service` in particular yields
check/stop/start/verify), and an `unknown` or unregistered action routes
to the empty plan. -/
theorem c8_route_templates (tgt : Option String) (pi : ParsedIntent)
    (h : pi.action = some "unknown" ∨ ∀ a, pi.action = some a → action_plans a = none) :
    route { action := some "restart_service", target := tgt } =
      [{ step := some "check", function := some "check_service", args := [tgt] },
       { step := some "stop", function := some "stop_service", args := [tgt] },
       { step := some "start", function := some "start_service", args := [tgt] },
       { step := some "verify", function := some "check_service", args := [tgt] }] ∧
    route { action := some "start_service", target := tgt } =
      [{ step := some "check", function := some "check_service", args := [tgt] },
       { step := some "start", function := some "start_service", args := [tgt] },
       { step := some "verify", function := some "check_service", args := [tgt] }] ∧
    route { action := some "stop_service", target := tgt } =
      [{ step := some "check", function := some "check_service", args := [tgt] },
       { step := some "stop", function := some "stop_service", args := [tgt] },
       { step := some "verify", function := some "check_service", args := [tgt] }] ∧
    route { action := some "check_service", target := tgt } =
      [{ step := some "check", function := some "check_service", args := [tgt] }] ∧
    route { action := some "run_command", target := tgt } =
      [{ step := some "execute", function := some "run_command", args := [tgt] }] ∧
    route { action := some "list_services", target := tgt } =
      [{ step := some "list", function := some "list_services", args := [] }] ∧
    route pi = [] := by
  refine ⟨rfl, rfl, rfl, rfl, rfl, rfl, ?_⟩
  rcases h with h | h
  · simp [route, h]
  · cases hact : pi.action with
    | none => simp [route, hact]
    | some a =>
      have hp := h a hact
      unfold route
      rw [hact]
      split
      · rfl
      · simp [hp]

/-- C8 witness. -/
theorem c8_route_templates_witness :
    route { action := some "restart_service", target := some "nginx" } =
      [{ step := some "check", function := some "check_service", args := [some "nginx"] },
       { step := some "stop", function := some "stop_service", args := [some "nginx"] },
       { step := some "start", function := some "start_service", args := [some "nginx"] },
       { step := some "verify", function := some "check_service", args := [some "nginx"] }] ∧
    route { action := some "format_disk", target := some "sda" } = [] :=
  ⟨(c8_route_templates (some "nginx") { action := some "format_disk", target := some "sda" }
      (Or.inr (by intro a ha; cases ha; decide))).1,
   (c8_route_templates (some "nginx") { action := some "format_disk", target := some "sda" }
      (Or.inr (by intro a ha; cases ha; decide))).2.2.2.2.2.2⟩

/-- Unpack `stepSucceedsB`. -/
theorem stepSucceeds_spec (f : ExecFn) (s : PStep) (h : stepSucceedsB f s = true) :
    ∃ fn r, s.function = some fn ∧ functionMapNames.contains fn = true ∧
      f fn s.args = FuncBehavior.returns r ∧ r.succVal = true := by
  unfold stepSucceedsB at h
  cases hfn : s.function with
  | none => rw [hfn] at h; cases h
  | some fn =>
    rw [hfn, Bool.and_eq_true] at h
    obtain ⟨h1, h2⟩ := h
    cases hres : f fn s.args with
    | returns r => rw [hres] at h2; exact ⟨fn, r, rfl, h1, hres, h2⟩
    | raises m => rw [hres] at h2; cases h2

/-- Unpack `stepReportsFailureB`. -/
theorem stepReportsFailure_spec (f : ExecFn) (s : PStep) (h : stepReportsFailureB f s = true) :
    ∃ fn r, s.function = some fn ∧ functionMapNames.contains fn = true ∧
      f fn s.args = FuncBehavior.returns r ∧ r.succVal = false := by
  unfold stepReportsFailureB at h
  cases hfn : s.function with
  | none => rw [hfn] at h; cases h
  | some fn =>
    rw [hfn, Bool.and_eq_true] at h
    obtain ⟨h1, h2⟩ := h
    cases hres : f fn s.args with
    | returns r =>
      rw [hres] at h2
      exact ⟨fn, r, rfl, h1, hres, by simpa using h2⟩
    | raises m => rw [hres] at h2; cases h2

/-- Unfolding `runPlan` on a step that executes and succeeds. -/
theorem runPlan_cons_success (f : ExecFn) (ff : Bool) (i : Nat) (s : PStep)
    (rest : List PStep) (fn : String) (r : PyResult)
    (hfn : s.function = some fn) (hc : functionMapNames.contains fn = true)
    (hres : f fn s.args = FuncBehavior.returns r) (hs : r.succVal = true) :
    runPlan f ff i (s :: rest) =
      (StepResult.executed (s.step.getD ("step_" ++ Nat.repr i)) fn r.succVal r
         :: (runPlan f ff (i + 1) rest).1,
       (runPlan f ff (i + 1) rest).2) := by
  have hmem : fn ∈ functionMapNames := by simpa using hc
  conv_lhs => unfold runPlan
  simp [hfn, hmem, hres, hs]

/-- Unfolding fail-fast `runPlan` on a step that executes and reports
failure: the loop stops. -/
theorem runPlan_cons_fail (f : ExecFn) (i : Nat) (s : PStep) (rest : List PStep)
    (fn : String) (r : PyResult)
    (hfn : s.function = some fn) (hc : functionMapNames.contains fn = true)
    (hres : f fn s.args = FuncBehavior.returns r) (hs : r.succVal = false) :
    runPlan f true i (s :: rest) =
      ([StepResult.executed (s.step.getD ("step_" ++ Nat.repr i)) fn r.succVal r],
       [s.step.getD ("step_" ++ Nat.repr i) ++ ": " ++ r.errVal]) := by
  have hmem : fn ∈ functionMapNames := by simpa using hc
  conv_lhs => unfold runPlan
  simp [hfn, hmem, hres, hs]

/-- Fail-fast run of a plan whose prefix succeeds and whose next step
reports failure: the suffix after the failing step is irrelevant, exactly
`pre.length + 1` step entries are produced, and the last entry is an
`executed` one (it carries a `result` key). -/
theorem runPlan_failfast_prefix (f : ExecFn) (s : PStep)
    (hf : stepReportsFailureB f s = true) :
    ∀ (pre : List PStep), (∀ t ∈ pre, stepSucceedsB f t = true) → ∀ (post : List PStep) (i : Nat),
      runPlan f true i (pre ++ s :: post) = runPlan f true i (pre ++ [s]) ∧
      (runPlan f true i (pre ++ s :: post)).1.length = pre.length + 1 ∧
      ∃ nm fn r, (runPlan f true i (pre ++ s :: post)).1.getLast? =
        some (StepResult.executed nm fn false r) := by
  intro pre
  induction pre with
  | nil =>
    intro _ post i
    obtain ⟨fn, r, hfn, hc, hres, hrs⟩ := stepReportsFailure_spec f s hf
    rw [List.nil_append, List.nil_append,
        runPlan_cons_fail f i s post fn r hfn hc hres hrs,
        runPlan_cons_fail f i s [] fn r hfn hc hres hrs]
    exact ⟨rfl, rfl, s.step.getD ("step_" ++ Nat.repr i), fn, r, by simp [hrs]⟩
  | cons t pre ih =>
    intro hpre post i
    obtain ⟨fn, r, hfn, hc, hres, hrs⟩ :=
      stepSucceeds_spec f t (hpre t (List.mem_cons_self t pre))
    have hpre' : ∀ u ∈ pre, stepSucceedsB f u = true :=
      fun u hu => hpre u (List.mem_cons_of_mem t hu)
    obtain ⟨e1, e2, nm, fn', r', e3⟩ := ih hpre' post (i + 1)
    rw [List.cons_append, List.cons_append,
        runPlan_cons_success f true i t (pre ++ s :: post) fn r hfn hc hres hrs,
        runPlan_cons_success f true i t (pre ++ [s]) fn r hfn hc hres hrs]
    refine ⟨by rw [e1], by simpa using e2, ?_⟩
    cases hA : (runPlan f true (i + 1) (pre ++ s :: post)).1 with
    | nil => rw [hA] at e2; simp at e2
    | cons a as =>
      refine ⟨nm, fn', r', ?_⟩
      rw [hA] at e3
      simpa [hA, List.getLast?_cons_cons] using e3

/-- C1: for a fail-fast `execute_plan` run where every step before `s`
succeeds and `s` is the first step whose result reports failure,
execution stops at `s`: the call returns normally, the returned step list
has exactly `pre.length + 1` attempted entries, and the steps after `s`
are irrelevant to the returned value (they are never attempted and never
reported). -/
theorem c1_fail_fast_stops (f : ExecFn) (pre post : List PStep) (s : PStep)
    (hpre : ∀ t ∈ pre, stepSucceedsB f t = true)
    (hs : stepReportsFailureB f s = true) :
    ∃ out : ExecResult,
      execute_plan f (pre ++ s :: post) true = Except.ok out ∧
      out.steps.length = pre.length + 1 ∧
      execute_plan f (pre ++ s :: post) true = execute_plan f (pre ++ [s]) true := by
  obtain ⟨e1, e2, nm, fn, r, e3⟩ := runPlan_failfast_prefix f s hs pre hpre post 0
  have hmain : execute_plan f (pre ++ s :: post) true = execute_plan f (pre ++ [s]) true := by
    unfold execute_plan
    rw [e1]
    simp
  refine ⟨{ success := (runPlan f true 0 (pre ++ s :: post)).2.isEmpty &&
              (runPlan f true 0 (pre ++ s :: post)).1.all (fun st => st.success),
            steps := (runPlan f true 0 (pre ++ s :: post)).1,
            final_result := some r,
            errors := (runPlan f true 0 (pre ++ s :: post)).2,
            steps_count := some (runPlan f true 0 (pre ++ s :: post)).1.length,
            message := none }, ?_, e2, hmain⟩
  unfold execute_plan
  rw [if_neg (by simp)]
  simp only [e3]

/-- C1 witness: a concrete two-step prefix-success / step-failure plan
with a trailing step that is never attempted. -/
theorem c1_fail_fast_stops_witness :
    (∀ t ∈ [({ step := some "start", function := some "start_service",
               args := [some "nginx"] } : PStep)], stepSucceedsB wExecFn t = true) ∧
    stepReportsFailureB wExecFn
      { step := some "verify", function := some "check_service", args := [some "nginx"] } = true ∧
    ∃ out : ExecResult,
      execute_plan wExecFn
        ([{ step := some "start", function := some "start_service", args := [some "nginx"] }] ++
          { step := some "verify", function := some "check_service", args := [some "nginx"] } ::
          [{ step := some "list", function := some "list_services", args := [] }]) true =
        Except.ok out ∧
      out.steps.length =
        [({ step := some "start", function := some "start_service",
            args := [some "nginx"] } : PStep)].length + 1 ∧
      execute_plan wExecFn
        ([{ step := some "start", function := some "start_service", args := [some "nginx"] }] ++
          { step := some "verify", function := some "check_service", args := [some "nginx"] } ::
          [{ step := some "list", function := some "list_services", args := [] }]) true =
      execute_plan wExecFn
        ([{ step := some "start", function := some "start_service", args := [some "nginx"] }] ++
          [{ step := some "verify", function := some "check_service", args := [some "nginx"] }]) true :=
  ⟨by decide, by decide,
   c1_fail_fast_stops wExecFn
     [{ step := some "start", function := some "start_service", args := [some "nginx"] }]
     [{ step := some "list", function := some "list_services", args := [] }]
     { step := some "verify", function := some "check_service", args := [some "nginx"] }
     (by decide) (by decide)⟩

/-- `verifyScanStep` never clears an already-set approval flag. -/
theorem verifyScanStep_mono (acc : Bool × String) (tc : ToolCallRec)
    (h : acc.1 = true) : (verifyScanStep acc tc).1 = true := by
  unfold verifyScanStep
  split_ifs <;> simp_all
  all_goals split_ifs <;> simp_all

/-- A dangerous tool call sets the approval flag. -/
theorem verifyScanStep_trigger (acc : Bool × String) (tc : ToolCallRec)
    (h : dangerousToolCallB tc = true) : (verifyScanStep acc tc).1 = true := by
  unfold dangerousToolCallB at h
  unfold verifyScanStep
  split_ifs at h ⊢ <;> simp_all

/-- A non-dangerous tool call leaves the accumulator unchanged. -/
theorem verifyScanStep_skip (acc : Bool × String) (tc : ToolCallRec)
    (h : dangerousToolCallB tc = false) : verifyScanStep acc tc = acc := by
  unfold dangerousToolCallB at h
  unfold verifyScanStep
  split_ifs at h ⊢ <;> simp_all

/-- Once set, the flag survives the rest of the scan. -/
theorem verifyScan_foldl_true (tcs : List ToolCallRec) :
    ∀ acc : Bool × String, acc.1 = true →
      (tcs.foldl verifyScanStep acc).1 = true := by
  induction tcs with
  | nil => intro acc h; simpa using h
  | cons tc rest ih =>
    intro acc h
    rw [List.foldl_cons]
    exact ih _ (verifyScanStep_mono acc tc h)

/-- The dangerous-operation scan sets the flag exactly when some scanned
tool call is dangerous. -/
theorem verifyScan_foldl_eq (tcs : List ToolCallRec) :
    ∀ acc : Bool × String,
      (tcs.foldl verifyScanStep acc).1 = (acc.1 || tcs.any dangerousToolCallB) := by
  induction tcs with
  | nil => intro acc; simp
  | cons tc rest ih =>
    intro acc
    rw [List.foldl_cons, List.any_cons]
    by_cases hd : dangerousToolCallB tc = true
    · rw [hd]
      have ht := verifyScanStep_trigger acc tc hd
      rw [verifyScan_foldl_true rest _ ht]
      simp
    · have hd' : dangerousToolCallB tc = false := by simpa using hd
      rw [verifyScanStep_skip acc tc hd', ih, hd']
      simp

/-- The verify node preserves the scanned tool-call list. -/
theorem verify_node_tool_calls (fexists : String → Bool) (st : AgentState) :
    (verify_node fexists st).tool_calls = st.tool_calls := by
  simp only [verify_node]
  split <;> rfl

/-- After the verify node, `requires_approval` equals the dangerous-call
scan over the tool calls of the turn. -/
theorem verify_node_requires (fexists : String → Bool) (st : AgentState) :
    (verify_node fexists st).requires_approval = st.tool_calls.any dangerousToolCallB := by
  simp only [verify_node]
  split <;> simp_all [verifyScan_foldl_eq]

/-- After the verify node, `approval_status` is `pending` exactly when the
scan fired, and is otherwise untouched. -/
theorem verify_node_status (fexists : String → Bool) (st : AgentState) :
    (verify_node fexists st).approval_status =
      (if st.tool_calls.any dangerousToolCallB = true then some "pending"
       else st.approval_status) := by
  by_cases hb : st.tool_calls.any dangerousToolCallB = true
  · rw [if_pos hb]
    simp only [verify_node]
    split
    · rfl
    · next h =>
        rw [verifyScan_foldl_eq] at h
        simp [hb] at h
  · have hb2 : st.tool_calls.any dangerousToolCallB = false := by simpa using hb
    rw [if_neg hb]
    simp only [verify_node]
    split
    · next h =>
        rw [verifyScan_foldl_eq] at h
        simp [hb2] at h
    · rfl

/-- C2 counterexample: a turn whose only tool call is `start_service`
does not set `requires_approval` after the verify node, refuting the
claim that any service start/stop/restart call requires approval. -/
theorem c2_counterexample :
    (({ initAgentState "s" with
         tool_calls := [{ name := "start_service", command := none,
                          file_path := none, service_name := some "nginx" }] } :
       AgentState).tool_calls.any (fun tc => tc.name == "start_service") = true) ∧
    (verify_node (fun _ => true)
      { initAgentState "s" with
         tool_calls := [{ name := "start_service", command := none,
                          file_path := none, service_name := some "nginx" }] }).requires_approval
      = false := by decide

/-- C2 (amended): a current-turn `write_file` call whose `file_path`
contains a protected path fragment, or a `stop_service` or
`restart_service` call, makes the verify node set
`requires_approval = true` (the code does not flag `start_service`). -/
theorem c2_amended_approval (fexists : String → Bool) (st : AgentState)
    (tc : ToolCallRec) (hmem : tc ∈ st.tool_calls)
    (hd : (tc.name = "write_file" ∧
            writePathPatterns.any (fun pat => containsSub (tc.file_path.getD "") pat) = true) ∨
          tc.name = "stop_service" ∨ tc.name = "restart_service") :
    (verify_node fexists st).requires_approval = true := by
  rw [verify_node_requires]
  refine List.any_eq_true.mpr ⟨tc, hmem, ?_⟩
  unfold dangerousToolCallB
  rcases hd with ⟨h1, h2⟩ | h | h
  · have hb : (if tc.name = "write_file" then
        writePathPatterns.any (fun pat => containsSub (tc.file_path.getD "") pat)
      else false) = true := by rw [if_pos h1]; exact h2
    simp only [Bool.or_eq_true]
    exact Or.inl (Or.inr hb)
  · have hb : (if tc.name = "stop_service" ∨ tc.name = "restart_service" then true
      else false) = true := by rw [if_pos (Or.inl h)]
    simp only [Bool.or_eq_true]
    exact Or.inr hb
  · have hb : (if tc.name = "stop_service" ∨ tc.name = "restart_service" then true
      else false) = true := by rw [if_pos (Or.inr h)]
    simp only [Bool.or_eq_true]
    exact Or.inr hb

/-- C2 witness: a protected-path write. -/
theorem c2_amended_approval_witness :
    (verify_node (fun _ => true)
      { initAgentState "s" with
         tool_calls := [{ name := "write_file", command := none,
                          file_path := some "/etc/hosts", service_name := none }] }).requires_approval
      = true :=
  c2_amended_approval (fun _ => true) _
    { name := "write_file", command := none, file_path := some "/etc/hosts",
      service_name := none }
    (by decide) (Or.inl ⟨rfl, by decide⟩)

/-- The invariant carried through the approval-touching transitions:
a pending state has the flag set and a dangerous call recorded in the
scanned tool calls of the turn. -/
theorem reachable_pending_inv {st : AgentState} (h : ReachableState st) :
    st.approval_status = some "pending" →
      st.requires_approval = true ∧ st.tool_calls.any dangerousToolCallB = true := by
  induction h with
  | init s h1 h2 =>
    intro hp
    rw [h1] at hp
    cases hp
  | verify fexists s hs ih =>
    intro hp
    rw [verify_node_status] at hp
    by_cases hb : s.tool_calls.any dangerousToolCallB = true
    · refine ⟨?_, ?_⟩
      · rw [verify_node_requires, hb]
      · rw [verify_node_tool_calls]
        exact hb
    · rw [if_neg hb] at hp
      exact absurd (ih hp).2 hb
  | hil s hs ih =>
    intro hp
    have hstat : (hil_node s).approval_status = s.approval_status := by
      unfold hil_node
      split_ifs <;> rfl
    rw [hstat] at hp
    obtain ⟨hr, hd⟩ := ih hp
    have heq : hil_node s = s := by
      unfold hil_node
      rw [if_neg (by rw [hr]; simp), if_pos hp]
    rw [heq]
    exact ⟨hr, hd⟩
  | approve b s hs ih =>
    intro hp
    unfold approve_update at hp
    simp only at hp
    cases b with
    | true => exact absurd (Option.some.inj hp) (by decide)
    | false => exact absurd (Option.some.inj hp) (by decide)

/-- C9: in every state reachable through the approval-touching
transitions (verify node, HIL node, approval API update),
`approval_status = pending` implies `requires_approval = true`. -/
theorem c9_pending_implies_requires (st : AgentState) (h : ReachableState st)
    (hp : st.approval_status = some "pending") : st.requires_approval = true :=
  (reachable_pending_inv h hp).1

/-- C9 witness: a state made pending by the verify node. -/
theorem c9_pending_implies_requires_witness :
    (verify_node (fun _ => true)
      { initAgentState "sess" with
         tool_calls := [{ name := "stop_service", command := none,
                          file_path := none, service_name := some "nginx" }] }).requires_approval
      = true :=
  c9_pending_implies_requires _
    (ReachableState.verify _ _ (ReachableState.init _ rfl rfl))
    (by decide)

/-- C6: at the HIL gate with `approval_status = rejected`, the HIL node
appends exactly the one fatal entry "Operation rejected by user",
control routes to `summarize` (not back to the agent), and the terminal
autonomous response carries `success = false`. -/
theorem c6_rejected_terminal (st : AgentState) (req : String)
    (h1 : st.requires_approval = true) (h2 : st.approval_status = some "rejected") :
    (hil_node st).errors = st.errors ++ ["Operation rejected by user"] ∧
    check_approval_status (hil_node st) = "summarize" ∧
    (autonomousResponse req (summarize_node (hil_node st))).success = false := by
  have hil_eq : hil_node st =
      { st with errors := st.errors ++ ["Operation rejected by user"],
                requires_approval := false } := by
    unfold hil_node
    rw [if_neg (by rw [h1]; simp), if_neg (by rw [h2]; decide),
        if_neg (by rw [h2]; decide), if_pos h2]
  rw [hil_eq]
  refine ⟨rfl, ?_, ?_⟩
  · have hs : ({ st with errors := st.errors ++ ["Operation rejected by user"], requires_approval := false } : AgentState).approval_status = some "rejected" := h2
    unfold check_approval_status
    rw [hs, if_neg (by decide), if_pos rfl]
  · have hse : (summarize_node { st with errors := st.errors ++ ["Operation rejected by user"], requires_approval := false }).errors = st.errors ++ ["Operation rejected by user"] := rfl
    have hsr : (autonomousResponse req (summarize_node { st with errors := st.errors ++ ["Operation rejected by user"], requires_approval := false })).success = (summarize_node { st with errors := st.errors ++ ["Operation rejected by user"], requires_approval := false }).errors.isEmpty := rfl
    rw [hsr, hse]
    simp

/-- C6 witness. -/
theorem c6_rejected_terminal_witness :
    (hil_node { initAgentState "s" with requires_approval := true, approval_status := some "rejected" }).errors = ["Operation rejected by user"] ∧
    check_approval_status (hil_node { initAgentState "s" with requires_approval := true, approval_status := some "rejected" }) = "summarize" ∧
    (autonomousResponse "stop nginx" (summarize_node (hil_node { initAgentState "s" with requires_approval := true, approval_status := some "rejected" }))).success = false :=
  c6_rejected_terminal { initAgentState "s" with requires_approval := true, approval_status := some "rejected" } "stop nginx" rfl rfl

/-- Unfolding `planner_node` when the oracle call raises. -/
theorem planner_node_err (oracle : String → Except String String) (st : AgentState)
    (e : String) (hm : st.mode = some "planning")
    (hu : getUserMessage st.messages ≠ "")
    (hor : oracle (getUserMessage st.messages) = Except.error e) :
    planner_node oracle st =
      { st with plan := some { task := getUserMessage st.messages, steps := exceptFallbackSteps, total_steps := 1 }, steps := exceptFallbackSteps, current_step := some 0, errors := st.errors ++ ["Planning error: " ++ e] } := by
  unfold planner_node
  rw [if_neg (by rw [hm]; simp), if_neg hu, hor]

/-- Unfolding `planner_node` when the oracle answers. -/
theorem planner_node_ok (oracle : String → Except String String) (st : AgentState)
    (txt : String) (hm : st.mode = some "planning")
    (hu : getUserMessage st.messages ≠ "")
    (hor : oracle (getUserMessage st.messages) = Except.ok txt) :
    planner_node oracle st =
      { st with plan := some { task := getUserMessage st.messages, steps := if (parsePlanLines txt).isEmpty then genericThreeSteps else parsePlanLines txt, total_steps := (if (parsePlanLines txt).isEmpty then genericThreeSteps else parsePlanLines txt).length }, steps := if (parsePlanLines txt).isEmpty then genericThreeSteps else parsePlanLines txt, current_step := some 0 } := by
  unfold planner_node
  rw [if_neg (by rw [hm]; simp), if_neg hu, hor]

/-- C3 (amended): in planning mode with a non-empty user message, the
planner always stores a non-empty plan; when the oracle call raises it
falls back to the one-step "Execute task" plan and records exactly one
planning-error entry; when the oracle answers but zero steps are
extracted it falls back to the three-step generic plan
(understand/execute/verify) without recording an error. -/
theorem c3_planner_fallback (oracle : String → Except String String)
    (st : AgentState) (hm : st.mode = some "planning")
    (hu : getUserMessage st.messages ≠ "") :
    (∃ pl, (planner_node oracle st).plan = some pl ∧ pl.steps ≠ []) ∧
    (∀ e, oracle (getUserMessage st.messages) = Except.error e →
      (planner_node oracle st).steps = exceptFallbackSteps ∧
      (planner_node oracle st).errors = st.errors ++ ["Planning error: " ++ e]) ∧
    (∀ txt, oracle (getUserMessage st.messages) = Except.ok txt →
      (parsePlanLines txt).isEmpty = true →
      (planner_node oracle st).steps = genericThreeSteps ∧
      (planner_node oracle st).errors = st.errors) := by
  refine ⟨?_, ?_, ?_⟩
  · cases hor : oracle (getUserMessage st.messages) with
    | error e =>
      rw [planner_node_err oracle st e hm hu hor]
      exact ⟨_, rfl, by simp [exceptFallbackSteps]⟩
    | ok txt =>
      rw [planner_node_ok oracle st txt hm hu hor]
      refine ⟨_, rfl, ?_⟩
      by_cases hp : (parsePlanLines txt).isEmpty = true
      · rw [if_pos hp]
        simp [genericThreeSteps]
      · rw [if_neg hp]
        simpa using hp
  · intro e hor
    rw [planner_node_err oracle st e hm hu hor]
    exact ⟨rfl, rfl⟩
  · intro txt hor hz
    rw [planner_node_ok oracle st txt hm hu hor]
    refine ⟨?_, rfl⟩
    simp [hz]

/-- C3 counterexample: when the planner oracle raises, the fallback plan
is the single step "Execute task", not the three-step generic plan the
claim states. -/
theorem c3_counterexample :
    (planner_node (fun _ => Except.error "transport error") { initAgentState "s" with mode := some "planning", messages := [AMsg.dict "user" "migrate the database"] }).steps = exceptFallbackSteps ∧
    (planner_node (fun _ => Except.error "transport error") { initAgentState "s" with mode := some "planning", messages := [AMsg.dict "user" "migrate the database"] }).steps ≠ genericThreeSteps ∧
    (planner_node (fun _ => Except.error "transport error") { initAgentState "s" with mode := some "planning", messages := [AMsg.dict "user" "migrate the database"] }).errors = ["Planning error: transport error"] := by
  decide

/-- C3 witness. -/
theorem c3_planner_fallback_witness :
    (planner_node (fun _ => Except.error "boom") { initAgentState "s" with mode := some "planning", messages := [AMsg.dict "user" "do the thing"] }).steps = exceptFallbackSteps ∧
    (planner_node (fun _ => Except.error "boom") { initAgentState "s" with mode := some "planning", messages := [AMsg.dict "user" "do the thing"] }).errors = ["Planning error: boom"] :=
  (c3_planner_fallback (fun _ => Except.error "boom") { initAgentState "s" with mode := some "planning", messages := [AMsg.dict "user" "do the thing"] } rfl (by decide)).2.1 "boom" rfl

/-- When the spec-side classifier yields `code` intent, its mode is the
10-token threshold test. -/
theorem routerSpec_code_mode (msg : String)
    (h : (routerSpecClassify msg).1 = "code") :
    (routerSpecClassify msg).2 =
      (if 10 < (pyTokens msg).length then "planning" else "simple") := by
  unfold routerSpecClassify at h ⊢
  by_cases h1 : complex_indicators.any (fun k => containsSub (lowerStr msg) k) = true
  · rw [if_pos h1] at h
    exact absurd h (by decide)
  · rw [if_neg h1] at h ⊢
    by_cases h2 : code_keywords.any (fun k => containsSub (lowerStr msg) k) = true
    · rw [if_pos h2]
    · rw [if_neg h2] at h ⊢
      by_cases h3 : web_keywords.any (fun k => containsSub (lowerStr msg) k) = true
      · rw [if_pos h3] at h
        exact absurd h (by decide)
      · rw [if_neg h3] at h ⊢
        by_cases h4 : action_keywords.any (fun k => containsSub (lowerStr msg) k) = true
        · rw [if_pos h4] at h
          exact absurd h (by decide)
        · rw [if_neg h4] at h
          exact absurd h (by decide)

/-- C7: for a state whose extracted user message is non-empty, the router
node computes exactly the ordered keyword classification of the claim
(complex indicators, then code, then web, then action, else chat), and
for `code` intent the mode is `planning` exactly when the message has
more than 10 whitespace-separated tokens. -/
theorem c7_router_classification (st : AgentState)
    (hu : getUserMessage st.messages ≠ "") :
    (router_node st).intent = some (routerSpecClassify (getUserMessage st.messages)).1 ∧
    (router_node st).mode = some (routerSpecClassify (getUserMessage st.messages)).2 ∧
    ((router_node st).intent = some "code" →
      ((router_node st).mode = some "planning" ↔
        10 < (pyTokens (getUserMessage st.messages)).length)) := by
  have hpair :
      (router_node st).intent = some (routerSpecClassify (getUserMessage st.messages)).1 ∧
      (router_node st).mode = some (routerSpecClassify (getUserMessage st.messages)).2 := by
    unfold router_node routerSpecClassify
    rw [if_neg hu]
    by_cases h1 : complex_indicators.any (fun k => containsSub (lowerStr (getUserMessage st.messages)) k) = true
    · rw [if_pos h1, if_pos h1]
      exact ⟨rfl, rfl⟩
    · rw [if_neg h1, if_neg h1]
      by_cases h2 : code_keywords.any (fun k => containsSub (lowerStr (getUserMessage st.messages)) k) = true
      · rw [if_pos h2, if_pos h2]
        exact ⟨rfl, rfl⟩
      · rw [if_neg h2, if_neg h2]
        by_cases h3 : web_keywords.any (fun k => containsSub (lowerStr (getUserMessage st.messages)) k) = true
        · rw [if_pos h3, if_pos h3]
          exact ⟨rfl, rfl⟩
        · rw [if_neg h3, if_neg h3]
          by_cases h4 : action_keywords.any (fun k => containsSub (lowerStr (getUserMessage st.messages)) k) = true
          · rw [if_pos h4, if_pos h4]
            exact ⟨rfl, rfl⟩
          · rw [if_neg h4, if_neg h4]
            exact ⟨rfl, rfl⟩
  refine ⟨hpair.1, hpair.2, ?_⟩
  intro hcode
  have h1 : (routerSpecClassify (getUserMessage st.messages)).1 = "code" := by
    rw [hpair.1] at hcode
    exact Option.some.inj hcode
  rw [hpair.2, routerSpec_code_mode (getUserMessage st.messages) h1]
  constructor
  · intro hmode
    by_cases hl : 10 < (pyTokens (getUserMessage st.messages)).length
    · exact hl
    · rw [if_neg hl] at hmode
      exact absurd (Option.some.inj hmode) (by decide)
  · intro hl
    rw [if_pos hl]

/-- C7 witness: an action-keyword message stays in simple mode. -/
theorem c7_router_classification_witness :
    (router_node { initAgentState "s" with messages := [AMsg.dict "user" "please restart nginx now"] }).intent = some "action" ∧
    (router_node { initAgentState "s" with messages := [AMsg.dict "user" "please restart nginx now"] }).mode = some "simple" :=
  ⟨(c7_router_classification { initAgentState "s" with messages := [AMsg.dict "user" "please restart nginx now"] } (by decide)).1,
   (c7_router_classification { initAgentState "s" with messages := [AMsg.dict "user" "please restart nginx now"] } (by decide)).2.1⟩

/-- The loop makes at most `iterations + fuel` oracle calls. -/
theorem handleLoop_calls_le (oracle : List ChatMsg → OracleResp)
    (caller : List LCToolCall → List FuncRes) (request : String) :
    ∀ (fuel iterations : Nat) (messages : List ChatMsg) (tool_results : List FuncRes),
      (handleLoop oracle caller request fuel iterations messages tool_results).2 ≤
        iterations + fuel := by
  intro fuel
  induction fuel with
  | zero =>
    intro iterations messages tool_results
    simp [handleLoop]
  | succ n ih =>
    intro iterations messages tool_results
    rw [handleLoop]
    cases ho : oracle messages with
    | err e => simp
    | reply content tcs =>
      by_cases he : tcs.isEmpty
      · simp [he]
      · simp only [he, if_false, Bool.false_eq_true]
        calc (handleLoop oracle caller request n (iterations + 1) _ _).2 ≤
            (iterations + 1) + n := ih (iterations + 1) _ _
          _ = iterations + (n + 1) := by omega

/-- If the oracle proposes tool calls at every turn, exhausting the fuel
yields the dedicated max-iterations failure. -/
theorem handleLoop_toolish (oracle : List ChatMsg → OracleResp)
    (caller : List LCToolCall → List FuncRes) (request : String)
    (h : alwaysProposesToolCalls oracle) :
    ∀ (fuel iterations : Nat) (messages : List ChatMsg) (tool_results : List FuncRes),
      (handleLoop oracle caller request fuel iterations messages tool_results).1.success
        = false ∧
      (handleLoop oracle caller request fuel iterations messages tool_results).1.message
        = some maxIterationsMessage := by
  intro fuel
  induction fuel with
  | zero =>
    intro iterations messages tool_results
    exact ⟨rfl, rfl⟩
  | succ n ih =>
    intro iterations messages tool_results
    obtain ⟨c, tcs, ho, hne⟩ := h messages
    have he : tcs.isEmpty = false := by
      cases tcs with
      | nil => exact absurd rfl hne
      | cons a as => rfl
    rw [handleLoop, ho]
    simp only [he, Bool.false_eq_true, if_false]
    exact ih (iterations + 1) _ _

/-- C5: for a single turn, `handle` issues at most `max_iterations`
oracle calls; and when the oracle never returns a no-tool-call response
(so the bound is actually reached), the turn terminates with
`success = false` and the dedicated max-iterations message. -/
theorem c5_iteration_bound (oracle : List ChatMsg → OracleResp)
    (caller : List LCToolCall → List FuncRes)
    (context request : String) (max_iterations : Nat) :
    (handle oracle caller context request max_iterations).2 ≤ max_iterations ∧
    (alwaysProposesToolCalls oracle →
      (handle oracle caller context request max_iterations).1.success = false ∧
      (handle oracle caller context request max_iterations).1.message =
        some maxIterationsMessage) := by
  constructor
  · have hle := handleLoop_calls_le oracle caller request max_iterations 0
    unfold handle
    simpa using hle _ _
  · intro h
    unfold handle
    exact handleLoop_toolish oracle caller request h max_iterations 0 _ _

/-- C5 witness: an oracle that always proposes one tool call exhausts a
2-iteration budget. -/
theorem c5_iteration_bound_witness :
    (handle (fun _ => OracleResp.reply none [{ id := some "1", type := "function", function := { name := "run_command", arguments := "" } }]) (fun _ => []) "" "list running services" 2).2 ≤ 2 ∧
    (handle (fun _ => OracleResp.reply none [{ id := some "1", type := "function", function := { name := "run_command", arguments := "" } }]) (fun _ => []) "" "list running services" 2).1.success = false ∧
    (handle (fun _ => OracleResp.reply none [{ id := some "1", type := "function", function := { name := "run_command", arguments := "" } }]) (fun _ => []) "" "list running services" 2).1.message = some maxIterationsMessage :=
  ⟨(c5_iteration_bound (fun _ => OracleResp.reply none [{ id := some "1", type := "function", function := { name := "run_command", arguments := "" } }]) (fun _ => []) "" "list running services" 2).1,
   (c5_iteration_bound (fun _ => OracleResp.reply none [{ id := some "1", type := "function", function := { name := "run_command", arguments := "" } }]) (fun _ => []) "" "list running services" 2).2
     (fun _ => ⟨none, [{ id := some "1", type := "function", function := { name := "run_command", arguments := "" } }], rfl, by simp⟩)⟩
